import Mathlib

/- Shallow embedding of src/generate_countsheet.py: the sea otter survey
count sheet reconciliation pipeline.  Spreadsheet cells are modelled as
Option String: none models a pandas NaN (a missing value), some s a cell
holding the text s.  DATE values are modelled after the coercion at source
line 64 (pd.to_datetime with coercing errors) as Option Nat, abstract
ordered day numbers; numeric TIME values as Option Int.  A raised Python
exception is modelled by Except.error. -/

namespace Countsheet

/-- A spreadsheet cell: none is pandas NaN. -/
abbrev Cell := Option String

/-- Python str applied to a cell value: str of NaN is the text nan. -/
def strOf (c : Cell) : String :=
  match c with
  | none => "nan"
  | some s => s

/-- ASCII whitespace, the model of what Python str.strip removes. -/
def isWS (c : Char) : Bool := c = ' ' || c = '\t' || c = '\n' || c = '\r'

/-- Python str.strip. -/
def trimStr (s : String) : String :=
  String.mk (((s.data.dropWhile isWS).reverse.dropWhile isWS).reverse)

/-- Python str.upper (ASCII model). -/
def upperStr (s : String) : String :=
  String.mk (s.data.map Char.toUpper)

/-- Python str.lower (ASCII model). -/
def lowerStr (s : String) : String :=
  String.mk (s.data.map Char.toLower)

/-- Python sep.join applied to a list of strings. -/
def pyJoin (sep : String) : List String → String
  | [] => ""
  | x :: xs => xs.foldl (fun a y => a ++ sep ++ y) x

/-- The run of leading ASCII digits of s, as matched by the regular
expression of one or more digits anchored at the start; empty when s does
not start with a digit. -/
def leadingDigits (s : String) : String :=
  String.mk (s.data.takeWhile Char.isDigit)

/-- Python s[n:] slicing, character based. -/
def strDropn (s : String) (n : Nat) : String := String.mk (s.data.drop n)

/-- Character length of s, Python len. -/
def strLen (s : String) : Nat := s.data.length

/-- The digit characters of s, as left by re.sub deleting non-digits. -/
def digitsOf (s : String) : String := String.mk (s.data.filter Char.isDigit)

/-- Numeric value of a digit string. -/
def natOfDigits (s : String) : Nat :=
  s.data.foldl (fun a c => a * 10 + (c.toNat - 48)) 0

/-- Python int applied to a string: optional sign then digits after
stripping whitespace; none models the ValueError raised otherwise. -/
def pyIntStr (s : String) : Option Int :=
  match (trimStr s).data with
  | '-' :: ds =>
    if ds ≠ [] ∧ ds.all Char.isDigit then some (-(natOfDigits (String.mk ds) : Int)) else none
  | '+' :: ds =>
    if ds ≠ [] ∧ ds.all Char.isDigit then some ((natOfDigits (String.mk ds) : Int)) else none
  | ds =>
    if ds ≠ [] ∧ ds.all Char.isDigit then some ((natOfDigits (String.mk ds) : Int)) else none

/-- Python int applied to a cell value; int of NaN raises as well. -/
def pyIntCell (c : Cell) : Except String Int :=
  match c with
  | none => Except.error "cannot convert float NaN to integer"
  | some s =>
    match pyIntStr s with
    | some n => Except.ok n
    | none => Except.error ("invalid literal for int with base 10: " ++ s)

/-- Python str.split on the dash character. -/
def splitDashAux : List Char → List Char → List (List Char)
  | [], cur => [cur.reverse]
  | c :: cs, cur =>
    if c = '-' then cur.reverse :: splitDashAux cs []
    else splitDashAux cs (c :: cur)

/-- Python str.split on the dash character. -/
def splitDash (s : String) : List String :=
  (splitDashAux s.data []).map String.mk

/-- Plain substring test, as pandas str.contains with a literal pattern. -/
def containsSub (pat s : String) : Bool :=
  (List.range (s.data.length + 1)).any (fun i => pat.data.isPrefixOf (s.data.drop i))

/-- pandas notna of the value and a nonempty stripped string form; the
test used throughout the source for a usable text value. -/
def nonblank (c : Cell) : Bool :=
  match c with
  | none => false
  | some s => trimStr s ≠ ""

/-- One raw field log entry (one row of the LOGSummary sheet, columns
normalized; source lines 35 to 58).  PASS_DESCRIPTION stands for the
column named PASS DESCRIPTION. -/
structure LogEntry where
  SUBSITE : Cell
  DATE : Option Nat
  TIME : Cell
  COUNT : Cell
  PASS : Cell
  ADD : Cell
  DISTURBANCE : Cell
  PASS_DESCRIPTION : Cell
  MML_ID : Cell
  REGION : Cell
  REGNO : Cell
  RCA : Cell
  ROOK : Cell
  Priority : Cell
  deriving DecidableEq, Inhabited, Repr

/-- One registry site (one row of the SITES sheet). -/
structure SiteRecord where
  SUBSITE : Cell
  SUBSITE_ID : Cell
  PARENTSITE : Cell
  PARENTSITE_ID : Cell
  MML_ID : Cell
  REGION : Cell
  REGNO : Cell
  RCA : Cell
  ROOK : Cell
  LAT : Cell
  LON : Cell
  deriving DecidableEq, Inhabited, Repr

/-- The key normalizer (source lines 57 to 58): astype str, strip, upper. -/
def subsite_key (c : Cell) : String := upperStr (trimStr (strOf c))

/-- Remove DO NOT USE rows (source line 62), case-insensitively. -/
def cleanLog (log : List LogEntry) : List LogEntry :=
  log.filter (fun e => ¬ containsSub "DO NOT USE" (upperStr (strOf e.SUBSITE)) = true)

/-- pd.to_numeric with coercing errors (integer model), source line 66. -/
def toNumeric (c : Cell) : Option Int :=
  match c with
  | none => none
  | some s => pyIntStr s

/-- Sort key for the per-group time sort: missing or unparseable time
values sort last. -/
def timeKey (e : LogEntry) : Nat ×ₗ Int :=
  toLex (match toNumeric e.TIME with
    | some n => (0, n)
    | none => (1, 0))

def timeLE (a b : LogEntry) : Prop := timeKey a ≤ timeKey b

instance : DecidableRel timeLE :=
  fun a b => inferInstanceAs (Decidable (timeKey a ≤ timeKey b))

instance : IsTotal LogEntry timeLE := ⟨fun a b => le_total (timeKey a) (timeKey b)⟩

instance : IsTrans LogEntry timeLE := ⟨fun _ _ _ h h2 => le_trans h h2⟩

/-- group.sort_values on the numeric time, ascending, NaN last
(source line 104), modelled as a stable sort. -/
def sortByTime (g : List LogEntry) : List LogEntry := List.insertionSort timeLE g

/-- The source helper concat add (lines 68 to 80): join nonblank ADD
values with plus separators, collapsing any digits to an integer. -/
def concat_add (cells : List Cell) : String :=
  let vals := cells.filterMap (fun c =>
    match c with
    | none => none
    | some v =>
      let s := trimStr v
      if s = "" then none
      else
        let num := digitsOf s
        if num = "" then some s else some (Nat.repr (natOfDigits num)))
  pyJoin " + " vals

/-- The source helper concat disturbance (lines 82 to 94). -/
def concat_disturbance (cells : List Cell) : String :=
  let vals := cells.filterMap (fun c =>
    match c with
    | none => none
    | some v => let s := trimStr v; if s = "" then none else some s)
  let parts := vals.foldl (fun acc v =>
    if acc ≠ [] ∧ List.isPrefixOf "disturbed ".data (lowerStr v).data then
      acc ++ [strDropn v 10]
    else acc ++ [v]) []
  pyJoin " + " parts

/-- The source helper concat non null (lines 96 to 99). -/
def concat_non_null (cells : List Cell) : String :=
  pyJoin "; " (cells.filterMap (fun c =>
    match c with
    | none => none
    | some v => let s := trimStr v; if s = "" then none else some s))

/-- Rows of a sorted group carrying a nonblank PASS (source line 110). -/
def photoRows (gs : List LogEntry) : List LogEntry := gs.filter (fun e => nonblank e.PASS)

/-- Rows of a sorted group with a non-null COUNT (source line 111). -/
def countRows (gs : List LogEntry) : List LogEntry := gs.filter (fun e => e.COUNT.isSome)

/-- The stripped non-blank MML id occurrences of a group, in group order
(source line 145); the list keeps duplicated occurrences. -/
def mmlList (gs : List LogEntry) : List String :=
  gs.filterMap (fun e =>
    match e.MML_ID with
    | none => none
    | some m => let s := trimStr m; if s = "" then none else some s)

/-- The nonempty remainders of every MML occurrence after the first
occurrence's numeric prefix (source lines 152 to 156). -/
def mmlSuffixes (ml : List String) (p : String) : List String :=
  ml.filterMap (fun m =>
    let suf := strDropn m (strLen p)
    if suf = "" then none else some suf)

/-- Combine MML ids that differ across a multi-entry group
(source lines 143 to 160), applied to the branch base record. -/
def applyMml (gs : List LogEntry) (base : LogEntry) : LogEntry :=
  let ml := mmlList gs
  if ml.dedup.length > 1 then
    let first := ml.headD ""
    let p := leadingDigits first
    if p ≠ "" then
      let suffixes := mmlSuffixes ml p
      if suffixes ≠ [] then { base with MML_ID := some (p ++ pyJoin "-" suffixes) }
      else base
    else { base with MML_ID := some first }
  else base

/-- Python f-string COUNT token for one count pass (source line 122);
Except.error models the raised ValueError of int. -/
def countToken (cr : LogEntry) : Except String String :=
  (pyIntCell cr.COUNT).map (fun n => "COUNT " ++ toString n)

/-- Python str of int of one count value (source line 129). -/
def countValue (cr : LogEntry) : Except String String :=
  (pyIntCell cr.COUNT).map (fun n => toString n)

/-- Aggregate one subsite group of log entries (source lines 103 to 162).
Except.error models a raised ValueError from int on a COUNT value; the
int conversions are the only statements of the loop that can raise, so
the error propagates directly out of the branch computation. -/
def aggGroup (g : List LogEntry) : Except String LogEntry :=
  let gs := sortByTime g
  match gs with
  | [] => Except.error "empty group"
  | [e] => Except.ok e
  | e0 :: _ :: _ =>
    let prows := photoRows gs
    let crows := countRows gs
    let hasPhoto : Bool := ¬ prows.isEmpty
    let hasCount : Bool := ¬ crows.isEmpty
    let branch : Except String LogEntry :=
      if hasPhoto ∧ hasCount then
        (crows.mapM countToken).map (fun tokens =>
          let b := prows.headD e0
          let existing := concat_add (gs.map (fun e => e.ADD))
          { b with ADD := some (pyJoin " + " ((existing :: tokens).filter (fun a => a ≠ ""))) })
      else if hasCount = true then
        (crows.mapM countValue).map (fun counts =>
          { e0 with COUNT := some (pyJoin "+" counts) })
      else Except.ok e0
    branch.map (fun base =>
      let base2 :=
        if hasPhoto ∧ hasCount then base
        else { base with ADD := some (concat_add (gs.map (fun e => e.ADD))) }
      let base3 := { base2 with
        DISTURBANCE := some (concat_disturbance (gs.map (fun e => e.DISTURBANCE))),
        PASS_DESCRIPTION := some (concat_non_null (gs.map (fun e => e.PASS_DESCRIPTION))) }
      applyMml gs base3)

/-- The MML ids accounted for inside a combined line (source lines 166
to 179), collected across the aggregated table. -/
def consumedIds (aggs : List LogEntry) : List String :=
  aggs.foldl (fun acc row =>
    let mml := trimStr (strOf row.MML_ID)
    if mml.data.contains '-' then
      let p := leadingDigits mml
      if p ≠ "" then
        acc ++ (splitDash (strDropn mml (strLen p))).map (fun s => p ++ s)
      else acc
    else acc) []

/-- The distinct normalized subsite keys of a list of log entries. -/
def groupKeys (l : List LogEntry) : List String :=
  (l.map (fun e => subsite_key e.SUBSITE)).dedup

/-- The entries of l sharing normalized key k, in input order. -/
def groupFor (l : List LogEntry) (k : String) : List LogEntry :=
  l.filter (fun e => subsite_key e.SUBSITE == k)

/-- groupby on the subsite key followed by per-group aggregation
(source lines 102 to 164). -/
def aggregateLog (l : List LogEntry) : Except String (List LogEntry) :=
  (groupKeys l).mapM (fun k => aggGroup (groupFor l k))

/-- The source inner helper val (lines 244 to 249): blank for NaN. -/
def val (c : Cell) : String :=
  match c with
  | none => ""
  | some s => s

/-- One output row: the dict built at source lines 251 to 290 (registry
rows) and 316 to 355 (new site rows).  flag_reason, sites_mml and log_mml
model the internal underscore-named keys; SURVEY_NOTES the key named
SURVEY NOTES; DATE and COUNTTYPE keep typed values with none for blank. -/
structure Row where
  FLAGS : String
  flag_reason : String
  sites_mml : String
  log_mml : String
  SUBSITE : Cell
  SUBSITE_ID : String
  PARENTSITE : String
  PARENTSITE_ID : String
  MML_ID : String
  REGION : String
  REGNO : String
  RCA : String
  ROOK : String
  LAT : String
  LON : String
  PRIORITY : String
  DATE : Option Nat
  SURVEY : String
  COUNTTYPE : Option Nat
  TIME : String
  PHOTO : String
  LOG_COUNT : String
  ADD : String
  FRAME : String
  BULL : String
  SAM : String
  FEM : String
  JUV : String
  PUP : String
  PUP_DEAD : String
  NP_DEAD : String
  NP_TOTAL : String
  ALL_COUNT : String
  COUNTER_NOTES : String
  DISTURBANCE : String
  BRANDS : String
  COUNTER : String
  SURVEY_NOTES : String
  deriving DecidableEq, Inhabited, Repr

/-- Lookup of the aggregate matching a normalized key (source line 191). -/
def findAgg (aggs : List LogEntry) (k : String) : Option LogEntry :=
  aggs.find? (fun a => subsite_key a.SUBSITE == k)

/-- Reconcile one registry site against the aggregated log
(source lines 189 to 291). -/
def reconcileSite (aggs : List LogEntry) (consumed : List String) (site : SiteRecord) : Row :=
  let key := subsite_key site.SUBSITE
  let log? := findAgg aggs key
  let survey :=
    match log? with
    | some lr => if lr.DATE.isSome then "OTTER" else "MISSED"
    | none =>
      let site_mml := trimStr (strOf site.MML_ID)
      if site_mml ≠ "" ∧ consumed.contains site_mml then "SUBSITE" else "OUTSIDE"
  let counttype : Option Nat :=
    if survey = "OTTER" then
      match log? with
      | some lr =>
        if nonblank lr.COUNT then some 4
        else if nonblank lr.PASS then some 3
        else none
      | none => none
    else none
  let photo :=
    if survey = "OTTER" then
      match log? with
      | some lr => if nonblank lr.PASS then "Y" else "N"
      | none => "N"
    else ""
  let fl :=
    match log? with
    | none => ("", "")
    | some lr =>
      let site_mml := trimStr (strOf site.MML_ID)
      let log_mml := trimStr (strOf lr.MML_ID)
      if upperStr log_mml = "NEW" then ("NEW SITE", "MML_ID marked as NEW")
      else
        let site_mml_num := if leadingDigits site_mml ≠ "" then leadingDigits site_mml else site_mml
        let log_mml_num := if leadingDigits log_mml ≠ "" then leadingDigits log_mml else log_mml
        if site_mml_num ≠ "" ∧ log_mml_num ≠ "" ∧ site_mml_num ≠ log_mml_num then
          ("NEEDS_REVIEW", "MML_ID mismatch: SITES=" ++ site_mml ++ ", LOG=" ++ log_mml)
        else ("", "")
  { FLAGS := fl.1
    flag_reason := fl.2
    sites_mml := trimStr (strOf site.MML_ID)
    log_mml := match log? with | some lr => trimStr (strOf lr.MML_ID) | none => ""
    SUBSITE := match log? with | some lr => lr.SUBSITE | none => site.SUBSITE
    SUBSITE_ID := val site.SUBSITE_ID
    PARENTSITE := val site.PARENTSITE
    PARENTSITE_ID := val site.PARENTSITE_ID
    MML_ID := match log? with
      | some lr => if survey = "OTTER" then val lr.MML_ID else val site.MML_ID
      | none => val site.MML_ID
    REGION := match log? with
      | some lr => if survey = "OTTER" ∨ survey = "MISSED" then val lr.REGION else val site.REGION
      | none => val site.REGION
    REGNO := match log? with
      | some lr => if survey = "OTTER" ∨ survey = "MISSED" then val lr.REGNO else val site.REGNO
      | none => val site.REGNO
    RCA := match log? with
      | some lr => if survey = "OTTER" ∨ survey = "MISSED" then val lr.RCA else val site.RCA
      | none => val site.RCA
    ROOK := match log? with
      | some lr => if survey = "OTTER" ∨ survey = "MISSED" then val lr.ROOK else val site.ROOK
      | none => val site.ROOK
    LAT := val site.LAT
    LON := val site.LON
    PRIORITY := match log? with | some lr => val lr.Priority | none => ""
    DATE := match log? with | some lr => lr.DATE | none => none
    SURVEY := survey
    COUNTTYPE := counttype
    TIME := match log? with | some lr => val lr.TIME | none => ""
    PHOTO := photo
    LOG_COUNT := match log? with | some lr => val lr.COUNT | none => ""
    ADD := match log? with | some lr => val lr.ADD | none => ""
    FRAME := ""
    BULL := ""
    SAM := ""
    FEM := ""
    JUV := ""
    PUP := ""
    PUP_DEAD := ""
    NP_DEAD := ""
    NP_TOTAL := ""
    ALL_COUNT := ""
    COUNTER_NOTES := ""
    DISTURBANCE := match log? with | some lr => val lr.DISTURBANCE | none => ""
    BRANDS := ""
    COUNTER := ""
    SURVEY_NOTES := match log? with | some lr => val lr.PASS_DESCRIPTION | none => "" }

/-- Build the synthetic row for a new site (source lines 298 to 356). -/
def mkNewSiteRow (lr : LogEntry) : Row :=
  let survey := if lr.DATE.isSome then "OTTER" else "MISSED"
  let counttype : Option Nat :=
    if survey = "OTTER" then
      if nonblank lr.COUNT then some 4
      else if nonblank lr.PASS then some 3
      else none
    else none
  let photo :=
    if survey = "OTTER" then (if nonblank lr.PASS then "Y" else "N") else ""
  { FLAGS := "NEW SITE"
    flag_reason := "SUBSITE not in SITES.xlsx"
    sites_mml := ""
    log_mml := val lr.MML_ID
    SUBSITE := lr.SUBSITE
    SUBSITE_ID := ""
    PARENTSITE := ""
    PARENTSITE_ID := ""
    MML_ID := val lr.MML_ID
    REGION := val lr.REGION
    REGNO := val lr.REGNO
    RCA := val lr.RCA
    ROOK := val lr.ROOK
    LAT := ""
    LON := ""
    PRIORITY := val lr.Priority
    DATE := lr.DATE
    SURVEY := survey
    COUNTTYPE := counttype
    TIME := val lr.TIME
    PHOTO := photo
    LOG_COUNT := val lr.COUNT
    ADD := val lr.ADD
    FRAME := ""
    BULL := ""
    SAM := ""
    FEM := ""
    JUV := ""
    PUP := ""
    PUP_DEAD := ""
    NP_DEAD := ""
    NP_TOTAL := ""
    ALL_COUNT := ""
    COUNTER_NOTES := ""
    DISTURBANCE := val lr.DISTURBANCE
    BRANDS := ""
    COUNTER := ""
    SURVEY_NOTES := val lr.PASS_DESCRIPTION }

/-- The distinct subsite keys of the aggregated log (source line 182). -/
def log_subsites (aggs : List LogEntry) : List String := groupKeys aggs

/-- The distinct subsite keys of the registry (source line 183). -/
def sites_subsites (sites : List SiteRecord) : List String :=
  (sites.map (fun s => subsite_key s.SUBSITE)).dedup

/-- Log keys absent from the registry, with blank and NAN keys removed
(source lines 294 to 296). -/
def new_site_keys (sites : List SiteRecord) (aggs : List LogEntry) : List String :=
  ((log_subsites aggs).filter (fun k => ¬ (sites_subsites sites).contains k)).filter
    (fun k => trimStr k ≠ "" ∧ k ≠ "NAN")

/-- The survey order map at source line 362; none models NaN. -/
def survey_order (s : String) : Option Nat :=
  if s = "OTTER" then some 0
  else if s = "MISSED" then some 1
  else if s = "SUBSITE" then some 2
  else if s = "OUTSIDE" then some 3
  else none

/-- Encode an optional sort level so that missing values sort last. -/
def optKey (o : Option Nat) : Nat × Nat :=
  match o with
  | some n => (0, n)
  | none => (1, 0)

/-- The three sort levels of a row, as plain tuples; the upper-cased
subsite text is compared by code points, hence kept as its characters. -/
def rowKeyPlain (r : Row) : (Nat × Nat) × (Nat × Nat) × List Char :=
  (optKey (survey_order r.SURVEY), optKey r.DATE, (upperStr (strOf r.SUBSITE)).data)

/-- Lexicographic sort key of a row (source lines 361 to 366): survey
rank, then parsed date with missing dates last, then upper-cased subsite. -/
abbrev SortKey := (Nat ×ₗ Nat) ×ₗ ((Nat ×ₗ Nat) ×ₗ List Char)

/-- The sort key of a row as a lexicographically ordered value. -/
def rowKey (r : Row) : SortKey :=
  toLex (toLex (rowKeyPlain r).1, toLex (toLex (rowKeyPlain r).2.1, (rowKeyPlain r).2.2))

/-- The row order used by the final sort. -/
def rowle (a b : Row) : Prop := rowKey a ≤ rowKey b

instance : DecidableRel rowle :=
  fun a b => inferInstanceAs (Decidable (rowKey a ≤ rowKey b))

instance : IsTotal Row rowle := ⟨fun a b => le_total (rowKey a) (rowKey b)⟩

instance : IsTrans Row rowle := ⟨fun _ _ _ h h2 => le_trans h h2⟩

/-- The final stable sort of the output rows (source line 366). -/
def sortRows (rows : List Row) : List Row := List.insertionSort rowle rows

/-- The 38 keys of the row dict, in construction order. -/
def rowColumns : List String :=
  ["FLAGS", "_flag_reason", "_sites_mml", "_log_mml", "SUBSITE", "SUBSITE_ID", "PARENTSITE",
   "PARENTSITE_ID", "MML_ID", "REGION", "REGNO", "RCA", "ROOK", "LAT", "LON", "PRIORITY",
   "DATE", "SURVEY", "COUNTTYPE", "TIME", "PHOTO", "LOG_COUNT", "ADD", "FRAME", "BULL",
   "SAM", "FEM", "JUV", "PUP", "PUP_DEAD", "NP_DEAD", "NP_TOTAL", "ALL_COUNT",
   "COUNTER_NOTES", "DISTURBANCE", "BRANDS", "COUNTER", "SURVEY NOTES"]

/-- The written columns: the internal underscore keys are dropped before
the main output is written (source line 396). -/
def outputColumns : List String :=
  rowColumns.filter (fun c => ¬ (["_flag_reason", "_sites_mml", "_log_mml"].contains c))

/-- Valid SURVEY values (source line 471). -/
def surveyOk (r : Row) : Bool :=
  r.SURVEY == "OTTER" || r.SURVEY == "MISSED" || r.SURVEY == "OUTSIDE" || r.SURVEY == "SUBSITE"

/-- Valid COUNTTYPE values (source line 472). -/
def countTypeOk (r : Row) : Bool :=
  r.COUNTTYPE == none || r.COUNTTYPE == some 3 || r.COUNTTYPE == some 4

/-- The final assertions (source lines 471 to 473), evaluated in order;
an error models a failed assert aborting the run. -/
def finalChecks (rows : List Row) : Except String Unit :=
  if ¬ rows.all surveyOk then Except.error "Invalid SURVEY values found"
  else if ¬ rows.all countTypeOk then Except.error "Invalid COUNTTYPE values found"
  else if outputColumns.length ≠ 35 then Except.error "Expected 35 columns"
  else Except.ok ()

/-- Whether the final assertions all pass. -/
def checksPass (rows : List Row) : Bool :=
  match finalChecks rows with
  | Except.ok _ => true
  | Except.error _ => false

/-- The duplicate subsite check (source lines 476 to 479); its result is
only printed as a warning, never asserted. -/
def hasDupSubsite (rows : List Row) : Bool :=
  let keys := rows.map (fun r => subsite_key r.SUBSITE)
  keys.length ≠ keys.dedup.length

/-- The flagged sites side report (source lines 371 to 376): written only
when at least one row carries a flag, and then holding the flagged rows. -/
def error_report (rows : List Row) : Option (List Row) :=
  let flagged := rows.filter (fun r => r.FLAGS ≠ "")
  if flagged.isEmpty then none else some flagged

/-- The whole reconciliation pipeline, from loaded inputs to the sorted
output rows; an error models a run dying on a raised exception.  When
aggregation yields no rows, pd.DataFrame at source line 164 builds a
frame with no columns, so reading the subsite column at line 182 raises
KeyError before any later stage runs.  When the registry is empty but a
new-site key exists, the helper bound inside the registry loop at line
244 was never defined and line 320 raises NameError. -/
def runPipeline (sites : List SiteRecord) (log : List LogEntry) : Except String (List Row) := do
  let cl := cleanLog log
  let aggs ← aggregateLog cl
  if aggs.isEmpty then
    Except.error "KeyError: _subsite_key"
  else
    let consumed := consumedIds aggs
    let siteRows := sites.map (reconcileSite aggs consumed)
    let newKeys := new_site_keys sites aggs
    if sites.isEmpty ∧ ¬ newKeys.isEmpty then
      Except.error "NameError: name _val is not defined"
    else
      let newRows := newKeys.filterMap (fun k => (findAgg aggs k).map mkNewSiteRow)
      pure (sortRows (siteRows ++ newRows))

/-- Whether an Except value is a success. -/
def exceptOk {ε α : Type} : Except ε α → Bool
  | Except.ok _ => true
  | Except.error _ => false

/-- A log entry with every field missing, a base for concrete inputs. -/
def blankEntry : LogEntry :=
  { SUBSITE := none, DATE := none, TIME := none, COUNT := none, PASS := none, ADD := none,
    DISTURBANCE := none, PASS_DESCRIPTION := none, MML_ID := none, REGION := none,
    REGNO := none, RCA := none, ROOK := none, Priority := none }

/-- A registry record with every field missing, a base for concrete inputs. -/
def blankSite : SiteRecord :=
  { SUBSITE := none, SUBSITE_ID := none, PARENTSITE := none, PARENTSITE_ID := none,
    MML_ID := none, REGION := none, REGNO := none, RCA := none, ROOK := none,
    LAT := none, LON := none }

/-- Concrete group for claim C2: the timed-first entry carries both a
nonblank PASS and a numeric COUNT, the second entry neither. -/
def gC2 : List LogEntry :=
  [{ blankEntry with SUBSITE := some "B2", TIME := some "1", PASS := some "P1", COUNT := some "5" },
   { blankEntry with SUBSITE := some "B2", TIME := some "2" }]

/-- Concrete group for claim C4: MML ids 183A, 183A, 183B with a
duplicated occurrence of 183A. -/
def gC4 : List LogEntry :=
  [{ blankEntry with SUBSITE := some "E5", TIME := some "1", MML_ID := some "183A" },
   { blankEntry with SUBSITE := some "E5", TIME := some "2", MML_ID := some "183A" },
   { blankEntry with SUBSITE := some "E5", TIME := some "3", MML_ID := some "183B" }]

/-- Concrete group for the claim C4 witness: MML ids 183A and 183B. -/
def gC4w : List LogEntry :=
  [{ blankEntry with SUBSITE := some "E6", TIME := some "1", MML_ID := some "183A" },
   { blankEntry with SUBSITE := some "E6", TIME := some "2", MML_ID := some "183B" }]

/-- Concrete group for the claim C2 witness: a photo pass with an ADD
note plus a count-only pass. -/
def gC2w : List LogEntry :=
  [{ blankEntry with SUBSITE := some "B3", TIME := some "1", PASS := some "P1", ADD := some "Add 2" },
   { blankEntry with SUBSITE := some "B3", TIME := some "2", COUNT := some "9" }]

/-- Concrete group for claim C8: a COUNT value that is not a number. -/
def gC8 : List LogEntry :=
  [{ blankEntry with SUBSITE := some "C1", TIME := some "1", COUNT := some "X" },
   { blankEntry with SUBSITE := some "C1", TIME := some "2" }]

/-- Concrete group for the claim C8 witness. -/
def gC8w : List LogEntry :=
  [{ blankEntry with SUBSITE := some "C2", TIME := some "1", COUNT := some "7" },
   { blankEntry with SUBSITE := some "C2", TIME := some "2", COUNT := some "4" }]

/-- Concrete registry record for claim C9, used twice to build a
duplicate subsite key. -/
def siteC9 : SiteRecord := { blankSite with SUBSITE := some "A" }

/-- Concrete log entry for claim C9: one undated single-pass entry for a
subsite absent from the registry, so the run reaches the final checks
with a non-empty aggregated table. -/
def logC9 : LogEntry := { blankEntry with SUBSITE := some "B" }

/-- The aggregate produced for the claim C4 witness group. -/
def aggC4w : LogEntry :=
  { blankEntry with
    SUBSITE := some "E6", TIME := some "1", MML_ID := some "183A-B",
    ADD := some "", DISTURBANCE := some "", PASS_DESCRIPTION := some "" }

/-- Helper: a mapM over Except whose function succeeds pointwise
produces the mapped list. -/
theorem mapM_ok_of_forall {α β : Type} (f : α → Except String β) (g : α → β) :
    ∀ l : List α, (∀ x ∈ l, f x = Except.ok (g x)) → l.mapM f = Except.ok (l.map g) := by
  intro l h
  induction l with
  | nil => rfl
  | cons x xs ih =>
    rw [List.mapM_cons, h x (by simp)]
    rw [ih (fun y hy => h y (by simp [hy]))]
    rfl

/-- Helper: a mapM over Except whose function succeeds pointwise
succeeds. -/
theorem mapM_ok_of_isOk {α β : Type} (f : α → Except String β) :
    ∀ l : List α, (∀ x ∈ l, exceptOk (f x) = true) → ∃ ys, l.mapM f = Except.ok ys := by
  intro l h
  induction l with
  | nil => exact ⟨[], rfl⟩
  | cons x xs ih =>
    obtain ⟨ys, hys⟩ := ih (fun y hy => h y (by simp [hy]))
    have hx := h x (by simp)
    cases hfx : f x with
    | error e => rw [hfx] at hx; simp [exceptOk] at hx
    | ok b =>
      refine ⟨b :: ys, ?_⟩
      rw [List.mapM_cons, hfx, hys]
      rfl

/-- Claim C1: for every registry SiteRecord the survey status is OTTER
when a matching aggregate has a non-blank date, MISSED when a matching
aggregate has a blank date, SUBSITE when no aggregate matches but the
record's non-blank stripped MML id lies in the consumed-ids set built
during aggregation, and OUTSIDE otherwise. -/
theorem C1_survey_status (site : SiteRecord) (aggs : List LogEntry) :
    (reconcileSite aggs (consumedIds aggs) site).SURVEY =
      match findAgg aggs (subsite_key site.SUBSITE) with
      | some a => if a.DATE.isSome then "OTTER" else "MISSED"
      | none =>
        if trimStr (strOf site.MML_ID) ≠ "" ∧ trimStr (strOf site.MML_ID) ∈ consumedIds aggs
        then "SUBSITE" else "OUTSIDE" := by
  unfold reconcileSite
  cases h : findAgg aggs (subsite_key site.SUBSITE) with
  | some a => simp [h]
  | none =>
    simp only [h]
    by_cases hm : trimStr (strOf site.MML_ID) ≠ "" ∧
        trimStr (strOf site.MML_ID) ∈ consumedIds aggs
    · rw [if_pos ⟨hm.1, (List.elem_iff).mpr hm.2⟩, if_pos hm]
    · rw [if_neg, if_neg hm]
      intro ⟨h1, h2⟩
      exact hm ⟨h1, (List.elem_iff).mp h2⟩

/-- Claim C3: countType is non-blank only for OTTER rows, where it is 4
when the matching aggregate carries a non-blank COUNT, else 3 when it
carries a non-blank PASS, else blank; photo is blank unless OTTER, then
Y exactly when the aggregate carries a non-blank PASS; this holds for
registry-backed rows and for synthetic new-site rows alike. -/
theorem C3_counttype_photo (site : SiteRecord) (aggs : List LogEntry)
    (consumed : List String) (lr : LogEntry) :
    ((reconcileSite aggs consumed site).COUNTTYPE =
       (if (reconcileSite aggs consumed site).SURVEY = "OTTER" then
          match findAgg aggs (subsite_key site.SUBSITE) with
          | some a => if nonblank a.COUNT then some 4 else if nonblank a.PASS then some 3 else none
          | none => none
        else none) ∧
     (reconcileSite aggs consumed site).PHOTO =
       (if (reconcileSite aggs consumed site).SURVEY = "OTTER" then
          match findAgg aggs (subsite_key site.SUBSITE) with
          | some a => if nonblank a.PASS then "Y" else "N"
          | none => "N"
        else "")) ∧
    ((mkNewSiteRow lr).COUNTTYPE =
       (if (mkNewSiteRow lr).SURVEY = "OTTER" then
          if nonblank lr.COUNT then some 4 else if nonblank lr.PASS then some 3 else none
        else none) ∧
     (mkNewSiteRow lr).PHOTO =
       (if (mkNewSiteRow lr).SURVEY = "OTTER" then
          (if nonblank lr.PASS then "Y" else "N")
        else "")) :=
  ⟨⟨rfl, rfl⟩, rfl, rfl⟩

/-- Claim C5: for a registry-backed row with a matching aggregate the
flag checks run in order with the first match winning: a log MML id equal
to NEW case-insensitively yields NEW SITE with its fixed reason, else
differing non-blank leading numeric prefixes (whole strings when not
numeric-led) yield NEEDS_REVIEW with a reason naming both stripped
values, else no flag; at most one flag is ever attached. -/
theorem C5_flags (site : SiteRecord) (aggs : List LogEntry) (consumed : List String) :
    (((reconcileSite aggs consumed site).FLAGS,
      (reconcileSite aggs consumed site).flag_reason) =
      match findAgg aggs (subsite_key site.SUBSITE) with
      | none => ("", "")
      | some lr =>
        let site_mml := trimStr (strOf site.MML_ID)
        let log_mml := trimStr (strOf lr.MML_ID)
        if upperStr log_mml = "NEW" then ("NEW SITE", "MML_ID marked as NEW")
        else
          let sp := if leadingDigits site_mml ≠ "" then leadingDigits site_mml else site_mml
          let lp := if leadingDigits log_mml ≠ "" then leadingDigits log_mml else log_mml
          if sp ≠ "" ∧ lp ≠ "" ∧ sp ≠ lp then
            ("NEEDS_REVIEW", "MML_ID mismatch: SITES=" ++ site_mml ++ ", LOG=" ++ log_mml)
          else ("", "")) ∧
    ((reconcileSite aggs consumed site).FLAGS = "" ∨
     (reconcileSite aggs consumed site).FLAGS = "NEW SITE" ∨
     (reconcileSite aggs consumed site).FLAGS = "NEEDS_REVIEW") := by
  refine ⟨rfl, ?_⟩
  unfold reconcileSite
  cases h : findAgg aggs (subsite_key site.SUBSITE) with
  | none => simp [h]
  | some lr =>
    simp only [h]
    by_cases h1 : upperStr (trimStr (strOf lr.MML_ID)) = "NEW"
    · simp [h1]
    · simp only [h1, if_false]
      split_ifs <;> simp

/-- Counterexample to claim C7: the key of a missing subsite value is the
text NAN, not the empty key, and it coincides with the key of a site
literally labelled nan. -/
theorem C7_counterexample :
    subsite_key none = "NAN" ∧ ¬ subsite_key none = "" ∧
    subsite_key (some " nan ") = subsite_key none := by
  refine ⟨rfl, by decide, rfl⟩

/-- Claim C7 amended: the normalizer trims and upper-cases string input;
a missing value is first rendered as the text nan, so its key is NAN
rather than the empty key, and the new-site stage explicitly discards
the NAN key instead of relying on an empty key. -/
theorem C7_amended (s : String) (sites : List SiteRecord) (aggs : List LogEntry) :
    subsite_key (some s) = upperStr (trimStr s) ∧
    subsite_key none = "NAN" ∧
    "NAN" ∉ new_site_keys sites aggs := by
  refine ⟨rfl, rfl, ?_⟩
  intro hmem
  unfold new_site_keys at hmem
  have := (List.mem_filter.mp hmem).2
  simp at this

/-- Counterexample to claim C9: a registry holding the same subsite twice
together with one clean log entry reaches the end of the pipeline with a
duplicate subsite key in the final row set, yet every assertion passes
and the run completes; the duplicate check only prints a warning. -/
theorem C9_counterexample :
    (runPipeline [siteC9, siteC9] [logC9]).toOption.map
      (fun rows => (checksPass rows, hasDupSubsite rows)) = some (true, true) := by
  decide

/-- Claim C9 amended: the final assertions abort the run exactly when a
row carries an unknown survey status or an invalid countType (the column
count is a fixed 35 and its assertion never fires); a duplicate subsite
key in the final row set is only reported as a printed warning and never
aborts. -/
theorem C9_amended (rows : List Row) :
    checksPass rows = (rows.all surveyOk && rows.all countTypeOk) ∧
    outputColumns.length = 35 := by
  refine ⟨?_, by decide⟩
  unfold checksPass finalChecks
  have h35 : outputColumns.length = 35 := by decide
  by_cases h1 : rows.all surveyOk
  · by_cases h2 : rows.all countTypeOk
    · simp [h1, h2, h35]
    · simp [h1, h2]
  · simp [h1]

/-- Helper: filtering by a key-equivalence-closed predicate commutes
with orderedInsert. -/
theorem filter_orderedInsert_key {α : Type} (r : α → α → Prop) [DecidableRel r]
    (P : α → Bool) (hP : ∀ a b, P a = true → P b = true → r a b) (x : α) :
    ∀ l : List α, (List.orderedInsert r x l).filter P =
      if P x then x :: l.filter P else l.filter P := by
  intro l
  induction l with
  | nil =>
    cases hPx : P x <;> simp [List.orderedInsert, List.filter, hPx]
  | cons y ys ih =>
    by_cases hxy : r x y
    · rw [List.orderedInsert, if_pos hxy]
      by_cases hx : P x
      · simp [hx, List.filter_cons]
      · simp [hx, List.filter_cons]
    · rw [List.orderedInsert, if_neg hxy]
      by_cases hy : P y
      · by_cases hx : P x
        · exact absurd (hP x y hx hy) hxy
        · simp [hx, hy, List.filter_cons, ih]
      · by_cases hx : P x
        · simp [hx, hy, List.filter_cons, ih]
        · simp [hx, hy, List.filter_cons, ih]

/-- Helper: insertion sort never reorders elements inside one
key-equivalence class. -/
theorem filter_insertionSort_key {α : Type} (r : α → α → Prop) [DecidableRel r]
    (P : α → Bool) (hP : ∀ a b, P a = true → P b = true → r a b) :
    ∀ l : List α, (List.insertionSort r l).filter P = l.filter P := by
  intro l
  induction l with
  | nil => rfl
  | cons x xs ih =>
    rw [List.insertionSort, filter_orderedInsert_key r P hP x]
    by_cases hx : P x
    · simp [hx, List.filter_cons, ih]
    · simp [hx, List.filter_cons, ih]

/-- Helper: equal plain keys give equal lexicographic keys. -/
theorem rowKey_eq_of_plain {a b : Row} (h : rowKeyPlain a = rowKeyPlain b) :
    rowKey a = rowKey b := by
  unfold rowKey
  rw [h]

/-- Claim C6: the final ordering is the total order on survey rank
(OTTER 0, MISSED 1, SUBSITE 2, OUTSIDE 3), then date with missing dates
last, then upper-cased subsite text; the sort is stable, so rows equal on
all three keys keep their relative order, and sorting an already sorted
sequence returns it unchanged. -/
theorem C6_sort (rows : List Row) :
    List.Perm (sortRows rows) rows ∧
    List.Sorted rowle (sortRows rows) ∧
    (∀ a b : Row, rowle a b ∨ rowle b a) ∧
    (survey_order "OTTER" = some 0 ∧ survey_order "MISSED" = some 1 ∧
     survey_order "SUBSITE" = some 2 ∧ survey_order "OUTSIDE" = some 3) ∧
    (∀ k, (sortRows rows).filter (fun r => rowKeyPlain r = k) =
       rows.filter (fun r => rowKeyPlain r = k)) ∧
    sortRows (sortRows rows) = sortRows rows := by
  refine ⟨List.perm_insertionSort rowle rows, List.sorted_insertionSort rowle rows,
    fun a b => le_total (rowKey a) (rowKey b), ⟨by decide, by decide, by decide, by decide⟩,
    ?_, List.Sorted.insertionSort_eq (List.sorted_insertionSort rowle rows)⟩
  intro k
  apply filter_insertionSort_key
  intro a b ha hb
  have h1 : rowKeyPlain a = k := by simpa using ha
  have h2 : rowKeyPlain b = k := by simpa using hb
  have hk : rowKey a = rowKey b := rowKey_eq_of_plain (h1.trans h2.symm)
  unfold rowle
  rw [hk]

/-- Counterexample to claim C8: a two-entry count-only group whose COUNT
value X is not numeric makes the aggregation raise a ValueError instead
of treating the value as absent. -/
theorem C8_counterexample :
    aggGroup gC8 = Except.error "invalid literal for int with base 10: X" := by
  rfl

/-- Helper: a key of groupKeys has a nonempty group. -/
theorem groupFor_ne_nil {l : List LogEntry} {k : String} (hk : k ∈ groupKeys l) :
    groupFor l k ≠ [] := by
  unfold groupKeys at hk
  obtain ⟨e, he, hke⟩ := List.mem_map.mp (List.mem_dedup.mp hk)
  intro h
  have hmem : e ∈ groupFor l k := by
    unfold groupFor
    rw [List.mem_filter]
    exact ⟨he, by simp [hke]⟩
  rw [h] at hmem
  exact absurd hmem (List.not_mem_nil e)

/-- Helper: a successful exceptOk test yields a success value. -/
theorem ok_of_exceptOk {e a : Type} {x : Except e a} (h : exceptOk x = true) :
    ∃ v, x = Except.ok v := by
  cases x with
  | ok v => exact ⟨v, rfl⟩
  | error err => simp [exceptOk] at h

/-- Helper: a group whose non-null COUNT values all parse aggregates
without raising. -/
theorem aggGroup_ok_of_counts (g : List LogEntry) (hne : g ≠ [])
    (hc : ∀ x ∈ countRows (sortByTime g), exceptOk (pyIntCell x.COUNT) = true) :
    ∃ a, aggGroup g = Except.ok a := by
  unfold aggGroup
  cases hgs : sortByTime g with
  | nil =>
    exfalso
    apply hne
    have hlen : (sortByTime g).length = g.length := List.length_insertionSort _ _
    rw [hgs] at hlen
    exact List.length_eq_zero.mp hlen.symm
  | cons e0 rest =>
    cases rest with
    | nil => exact ⟨e0, rfl⟩
    | cons e1 t =>
      rw [hgs] at hc
      have hcm : ∀ x ∈ countRows (e0 :: e1 :: t), exceptOk (countToken x) = true := by
        intro x hx
        have := hc x hx
        cases hpx : pyIntCell x.COUNT with
        | error e => rw [hpx] at this; simp [exceptOk] at this
        | ok n => simp [countToken, hpx, exceptOk, Except.map]
      have hcm2 : ∀ x ∈ countRows (e0 :: e1 :: t), exceptOk (countValue x) = true := by
        intro x hx
        have := hc x hx
        cases hpx : pyIntCell x.COUNT with
        | error e => rw [hpx] at this; simp [exceptOk] at this
        | ok n => simp [countValue, hpx, exceptOk, Except.map]
      obtain ⟨ys, hys⟩ := mapM_ok_of_isOk _ (countRows (e0 :: e1 :: t)) hcm
      obtain ⟨zs, hzs⟩ := mapM_ok_of_isOk _ (countRows (e0 :: e1 :: t)) hcm2
      apply ok_of_exceptOk
      dsimp only
      split_ifs with h1 h2
      · rw [hys]
        rfl
      · rw [hzs]
        rfl
      · rfl

/-- Claim C8 amended: DATE and TIME coercion is total, degrading
unparseable values to absent, and a single-entry group aggregates
verbatim, never raising; aggregation of the cleaned log completes
whenever every non-null COUNT value parses as an integer, but the COUNT
token rendering and the count concatenation call Python int directly, so
a non-numeric COUNT in a multi-entry group raises a ValueError. -/
theorem C8_amended (log : List LogEntry)
    (hc : ∀ x ∈ cleanLog log, x.COUNT.isSome = true →
      (pyIntStr (strOf x.COUNT)).isSome = true) :
    (∀ e : LogEntry, aggGroup [e] = Except.ok e) ∧
    (∃ aggs, aggregateLog (cleanLog log) = Except.ok aggs) := by
  constructor
  · intro e
    rfl
  · have hgrp : ∀ k ∈ groupKeys (cleanLog log),
        exceptOk (aggGroup (groupFor (cleanLog log) k)) = true := by
      intro k hk
      have hne := groupFor_ne_nil hk
      have hcg : ∀ x ∈ countRows (sortByTime (groupFor (cleanLog log) k)),
          exceptOk (pyIntCell x.COUNT) = true := by
        intro x hx
        have hx1 : x ∈ sortByTime (groupFor (cleanLog log) k) :=
          List.mem_of_mem_filter hx
        have hx2 : x ∈ groupFor (cleanLog log) k :=
          (List.mem_insertionSort timeLE).mp hx1
        have hx3 : x ∈ cleanLog log := List.mem_of_mem_filter hx2
        have hxc : x.COUNT.isSome = true := by
          have := List.mem_filter.mp hx
          simpa using this.2
        have := hc x hx3 hxc
        cases hcc : x.COUNT with
        | none => rw [hcc] at hxc; simp at hxc
        | some s =>
          rw [hcc] at this
          simp only [strOf] at this
          cases hps : pyIntStr s with
          | none => rw [hps] at this; simp at this
          | some n => simp [pyIntCell, hcc, hps, exceptOk]
      obtain ⟨a, ha⟩ := aggGroup_ok_of_counts _ hne hcg
      simp [ha, exceptOk]
    obtain ⟨aggs, haggs⟩ := mapM_ok_of_isOk _ (groupKeys (cleanLog log)) hgrp
    exact ⟨aggs, haggs⟩

/-- Witness for the amended claim C8 at a concrete two-count group. -/
theorem C8_amended_witness :
    (∀ e : LogEntry, aggGroup [e] = Except.ok e) ∧
    (∃ aggs, aggregateLog (cleanLog gC8w) = Except.ok aggs) :=
  C8_amended gC8w (by decide)

/-- Helper: headD of a nonempty list ignores the default. -/
theorem headD_eq_headD {α : Type} {l : List α} (h : l ≠ []) (d1 d2 : α) :
    l.headD d1 = l.headD d2 := by
  cases l with
  | nil => exact absurd rfl h
  | cons x xs => rfl

/-- Helper: the MML combination step touches no field but MML_ID. -/
theorem applyMml_preserves (gs : List LogEntry) (b : LogEntry) :
    (applyMml gs b).SUBSITE = b.SUBSITE ∧ (applyMml gs b).DATE = b.DATE ∧
    (applyMml gs b).TIME = b.TIME ∧ (applyMml gs b).COUNT = b.COUNT ∧
    (applyMml gs b).PASS = b.PASS ∧ (applyMml gs b).ADD = b.ADD := by
  unfold applyMml
  dsimp only
  split_ifs <;> simp

/-- Helper: shape of the aggregate in the mixed photo and count case. -/
theorem aggGroup_mixed (e0 e1 : LogEntry) (t : List LogEntry) (g : List LogEntry)
    (hgs : sortByTime g = e0 :: e1 :: t)
    (hp : photoRows (e0 :: e1 :: t) ≠ [])
    (hc : countRows (e0 :: e1 :: t) ≠ [])
    (tokens : List String)
    (htok : (countRows (e0 :: e1 :: t)).mapM countToken = Except.ok tokens) :
    aggGroup g = Except.ok (applyMml (e0 :: e1 :: t)
      { (photoRows (e0 :: e1 :: t)).headD e0 with
        ADD := some (pyJoin " + "
          ((concat_add ((e0 :: e1 :: t).map (fun e => e.ADD)) :: tokens).filter
            (fun s => s ≠ ""))),
        DISTURBANCE := some (concat_disturbance ((e0 :: e1 :: t).map (fun e => e.DISTURBANCE))),
        PASS_DESCRIPTION :=
          some (concat_non_null ((e0 :: e1 :: t).map (fun e => e.PASS_DESCRIPTION))) }) := by
  have hpe : (photoRows (e0 :: e1 :: t)).isEmpty = false := by
    cases hpr : photoRows (e0 :: e1 :: t) with
    | nil => exact absurd hpr hp
    | cons x xs => rfl
  have hce : (countRows (e0 :: e1 :: t)).isEmpty = false := by
    cases hcr : countRows (e0 :: e1 :: t) with
    | nil => exact absurd hcr hc
    | cons x xs => rfl
  unfold aggGroup
  rw [hgs]
  dsimp only
  simp only [hpe, hce]
  rw [htok]
  simp [Except.map]

/-- Counterexample to claim C2: in this group every count-bearing entry
also carries a pass, so there is no count-only entry and the claim
requires no COUNT token at all, yet the aggregate's add value is the
token COUNT 5 rendered from the photo-bearing entry's own count. -/
theorem C2_counterexample :
    ((countRows (sortByTime gC2)).all (fun e => nonblank e.PASS) = true) ∧
    (aggGroup gC2).toOption.map (fun a => a.ADD) = some (some "COUNT 5") := by
  constructor
  · decide
  · decide

/-- Claim C2 amended: in the mixed case the aggregate's base record is
the earliest photo-bearing entry of the time-sorted group, and its add
value is the concatenated add values of the whole group followed by one
COUNT n token for every entry with a non-null count — including entries
that also carry a pass, not only count-only entries — joined by the
plus separator with blank pieces dropped. -/
theorem C2_mixed_amended (g : List LogEntry)
    (h2 : 2 ≤ (sortByTime g).length)
    (hp : photoRows (sortByTime g) ≠ [])
    (hc : countRows (sortByTime g) ≠ [])
    (hn : ∀ x ∈ countRows (sortByTime g), exceptOk (pyIntCell x.COUNT) = true) :
    ∃ a, aggGroup g = Except.ok a ∧
      a.SUBSITE = ((photoRows (sortByTime g)).headD default).SUBSITE ∧
      a.DATE = ((photoRows (sortByTime g)).headD default).DATE ∧
      a.TIME = ((photoRows (sortByTime g)).headD default).TIME ∧
      a.COUNT = ((photoRows (sortByTime g)).headD default).COUNT ∧
      a.PASS = ((photoRows (sortByTime g)).headD default).PASS ∧
      a.ADD = some (pyJoin " + "
        ((concat_add ((sortByTime g).map (fun e => e.ADD)) ::
          (countRows (sortByTime g)).map
            (fun e => "COUNT " ++ toString ((pyIntCell e.COUNT).toOption.getD 0))).filter
          (fun s => s ≠ ""))) := by
  cases hgs : sortByTime g with
  | nil => rw [hgs] at h2; simp at h2
  | cons e0 rest =>
    cases rest with
    | nil => rw [hgs] at h2; simp at h2
    | cons e1 t =>
      rw [hgs] at hp hc hn
      have htok : (countRows (e0 :: e1 :: t)).mapM countToken =
          Except.ok ((countRows (e0 :: e1 :: t)).map
            (fun e => "COUNT " ++ toString ((pyIntCell e.COUNT).toOption.getD 0))) := by
        apply mapM_ok_of_forall
        intro x hx
        have := hn x hx
        cases hpx : pyIntCell x.COUNT with
        | error err => rw [hpx] at this; simp [exceptOk] at this
        | ok n => simp [countToken, hpx, Except.map, Except.toOption]
      have hshape := aggGroup_mixed e0 e1 t g hgs hp hc _ htok
      refine ⟨_, hshape, ?_⟩
      rw [headD_eq_headD hp default e0]
      exact applyMml_preserves (e0 :: e1 :: t) _

/-- Witness for the amended claim C2 at a concrete two-pass group with a
photo entry carrying an add note and a count-only entry. -/
theorem C2_mixed_amended_witness :
    ∃ a, aggGroup gC2w = Except.ok a ∧
      a.SUBSITE = ((photoRows (sortByTime gC2w)).headD default).SUBSITE ∧
      a.DATE = ((photoRows (sortByTime gC2w)).headD default).DATE ∧
      a.TIME = ((photoRows (sortByTime gC2w)).headD default).TIME ∧
      a.COUNT = ((photoRows (sortByTime gC2w)).headD default).COUNT ∧
      a.PASS = ((photoRows (sortByTime gC2w)).headD default).PASS ∧
      a.ADD = some (pyJoin " + "
        ((concat_add ((sortByTime gC2w).map (fun e => e.ADD)) ::
          (countRows (sortByTime gC2w)).map
            (fun e => "COUNT " ++ toString ((pyIntCell e.COUNT).toOption.getD 0))).filter
          (fun s => s ≠ ""))) :=
  C2_mixed_amended gC2w (by decide) (by decide) (by decide) (by decide)

/-- Claim C10: the flagged sites report is produced exactly when some row
carries a non-empty flags value, and it then holds exactly the flagged
rows. -/
theorem C10_error_report (rows : List Row) :
    error_report rows =
      if rows.all (fun r => r.FLAGS == "") then none
      else some (rows.filter (fun r => r.FLAGS ≠ "")) := by
  unfold error_report
  by_cases h : rows.all (fun r => r.FLAGS == "")
  · rw [if_pos h, if_pos]
    rw [List.isEmpty_iff, List.filter_eq_nil_iff]
    intro a ha
    have := (List.all_eq_true.mp h) a ha
    simp at this
    simp [this]
  · rw [if_neg h, if_neg]
    rw [List.isEmpty_iff, List.filter_eq_nil_iff]
    intro hall
    apply h
    rw [List.all_eq_true]
    intro a ha
    have := hall a ha
    simp at this
    simp [this]

/-- Helper: dropWhile is the identity when no element satisfies p. -/
theorem dropWhile_eq_self_of_all {α : Type} (p : α → Bool) :
    ∀ l : List α, (∀ c ∈ l, p c = false) → l.dropWhile p = l
  | [], _ => rfl
  | x :: xs, h => by
    rw [List.dropWhile_cons, h x (by simp)]
    simp

/-- Helper: a string with no whitespace is unchanged by strip. -/
theorem trimStr_eq_self {s : String} (h : ∀ c ∈ s.data, isWS c = false) : trimStr s = s := by
  unfold trimStr
  rw [dropWhile_eq_self_of_all _ _ h]
  rw [dropWhile_eq_self_of_all _ _ (fun c hc => h c (List.mem_reverse.mp hc))]
  rw [List.reverse_reverse]

/-- Helper: takeWhile runs through an all-true block. -/
theorem takeWhile_append_of_all {α : Type} (p : α → Bool) :
    ∀ (l1 l2 : List α), (∀ c ∈ l1, p c = true) →
      (l1 ++ l2).takeWhile p = l1 ++ l2.takeWhile p
  | [], _, _ => rfl
  | x :: xs, l2, h => by
    rw [List.cons_append, List.takeWhile_cons, h x (by simp)]
    rw [takeWhile_append_of_all p xs l2 (fun c hc => h c (by simp [hc]))]
    simp

/-- Helper: splitDashAux over a dash-free block collects one piece. -/
theorem splitDashAux_no_dash :
    ∀ (l cur : List Char), (∀ c ∈ l, ¬ c = '-') →
      splitDashAux l cur = [cur.reverse ++ l]
  | [], cur, _ => by rw [splitDashAux, List.append_nil]
  | c :: cs, cur, h => by
    rw [splitDashAux, if_neg (h c (by simp))]
    rw [splitDashAux_no_dash cs (c :: cur) (fun d hd => h d (by simp [hd]))]
    simp

/-- Helper: splitDashAux cuts at the first dash after a dash-free block. -/
theorem splitDashAux_block :
    ∀ (l rest cur : List Char), (∀ c ∈ l, ¬ c = '-') →
      splitDashAux (l ++ '-' :: rest) cur = (cur.reverse ++ l) :: splitDashAux rest []
  | [], rest, cur, _ => by
    rw [List.nil_append, splitDashAux, if_pos rfl]
    simp
  | c :: cs, rest, cur, h => by
    rw [List.cons_append, splitDashAux, if_neg (h c (by simp))]
    rw [splitDashAux_block cs rest (c :: cur) (fun d hd => h d (by simp [hd]))]
    simp

/-- Helper: string append is associative. -/
theorem strAppend_assoc (a b c : String) : a ++ b ++ c = a ++ (b ++ c) :=
  String.append_assoc a b c

/-- Helper: the join fold factors an accumulated piece out front. -/
theorem pyJoin_foldl (sep : String) :
    ∀ (t : List String) (a b : String),
      List.foldl (fun acc z => acc ++ sep ++ z) (a ++ b) t =
        a ++ List.foldl (fun acc z => acc ++ sep ++ z) b t
  | [], _, _ => rfl
  | z :: zs, a, b => by
    rw [List.foldl_cons, List.foldl_cons]
    rw [strAppend_assoc (a ++ b) sep z, strAppend_assoc a b (sep ++ z)]
    rw [pyJoin_foldl sep zs a (b ++ (sep ++ z))]
    rw [strAppend_assoc b sep z]

/-- Helper: pyJoin unfolds one separator at a time. -/
theorem pyJoin_cons_cons (sep x y : String) (t : List String) :
    pyJoin sep (x :: y :: t) = x ++ sep ++ pyJoin sep (y :: t) := by
  show List.foldl _ x (y :: t) = _
  rw [List.foldl_cons]
  rw [show x ++ sep ++ y = (x ++ sep) ++ y from rfl]
  rw [pyJoin_foldl sep t (x ++ sep) y]
  rfl

/-- Helper: the characters of a triple append around a dash. -/
theorem data_append3 (x J : String) : (x ++ "-" ++ J).data = x.data ++ '-' :: J.data := by
  cases x
  cases J
  simp

/-- Helper: the characters of a dash join come from the dash or from one
of the joined pieces. -/
theorem mem_pyJoin_dash :
    ∀ (t : List String) (x : String) (ch : Char), ch ∈ (pyJoin "-" (x :: t)).data →
      ch = '-' ∨ ∃ s ∈ x :: t, ch ∈ s.data
  | [], x, ch, h => Or.inr ⟨x, by simp, h⟩
  | y :: t2, x, ch, h => by
    rw [pyJoin_cons_cons] at h
    rw [data_append3] at h
    rcases List.mem_append.mp h with h1 | h2
    · exact Or.inr ⟨x, by simp, h1⟩
    · rcases List.mem_cons.mp h2 with h3 | h4
      · exact Or.inl h3
      · rcases mem_pyJoin_dash t2 y ch h4 with h5 | ⟨s, hs1, hs2⟩
        · exact Or.inl h5
        · exact Or.inr ⟨s, by simp [List.mem_cons.mp hs1], hs2⟩

/-- Helper: splitting a dash join of dash-free pieces recovers the
pieces. -/
theorem splitDashAux_pyJoin :
    ∀ (t : List String) (x : String),
      (∀ s ∈ x :: t, ∀ ch ∈ s.data, ¬ ch = '-') →
      splitDashAux (pyJoin "-" (x :: t)).data [] = (x :: t).map String.data
  | [], x, h => by
    show splitDashAux x.data [] = [x.data]
    rw [splitDashAux_no_dash x.data [] (h x (by simp))]
    simp
  | y :: t2, x, h => by
    rw [pyJoin_cons_cons]
    rw [data_append3]
    rw [splitDashAux_block x.data _ [] (h x (by simp))]
    rw [splitDashAux_pyJoin t2 y (fun s hs => h s (by simp [List.mem_cons.mp hs]))]
    simp

/-- Helper: a digit character is not whitespace. -/
theorem digit_not_ws (ch : Char) (h : Char.isDigit ch = true) : isWS ch = false := by
  unfold isWS
  have h1 : ¬ ch = ' ' := fun e => by subst e; exact absurd h (by decide)
  have h2 : ¬ ch = '\t' := fun e => by subst e; exact absurd h (by decide)
  have h3 : ¬ ch = '\n' := fun e => by subst e; exact absurd h (by decide)
  have h4 : ¬ ch = '\r' := fun e => by subst e; exact absurd h (by decide)
  simp [h1, h2, h3, h4]

/-- Helper: the MML id written by the combination step when more than
one distinct value occurs. -/
theorem applyMml_MML (gs : List LogEntry) (b : LogEntry)
    (hd : 1 < (mmlList gs).dedup.length) :
    (applyMml gs b).MML_ID =
      (let p := leadingDigits ((mmlList gs).headD "")
       if p ≠ "" then
         (if mmlSuffixes (mmlList gs) p ≠ [] then
            some (p ++ pyJoin "-" (mmlSuffixes (mmlList gs) p))
          else b.MML_ID)
       else some ((mmlList gs).headD "")) := by
  unfold applyMml
  rw [if_pos hd]
  dsimp only
  split_ifs <;> rfl

/-- Helper: a successful multi-entry aggregation ends with the MML
combination step applied to some branch base record. -/
theorem aggGroup_shape (g : List LogEntry) (a : LogEntry)
    (hok : aggGroup g = Except.ok a) (h2 : 2 ≤ (sortByTime g).length) :
    ∃ b, a = applyMml (sortByTime g) b := by
  cases hgs : sortByTime g with
  | nil => rw [hgs] at h2; simp at h2
  | cons e0 rest =>
    cases rest with
    | nil => rw [hgs] at h2; simp at h2
    | cons e1 t =>
      unfold aggGroup at hok
      rw [hgs] at hok
      dsimp only at hok
      split_ifs at hok
      · cases hm : (countRows (e0 :: e1 :: t)).mapM countToken with
        | error err => rw [hm] at hok; simp [Except.map] at hok
        | ok ys =>
          rw [hm] at hok
          simp only [Except.map, Except.ok.injEq] at hok
          exact ⟨_, hok.symm⟩
      · cases hm : (countRows (e0 :: e1 :: t)).mapM countValue with
        | error err => rw [hm] at hok; simp [Except.map] at hok
        | ok ys =>
          rw [hm] at hok
          simp only [Except.map, Except.ok.injEq] at hok
          exact ⟨_, hok.symm⟩
      · simp only [Except.map, Except.ok.injEq] at hok
        exact ⟨_, hok.symm⟩

/-- Helper: decomposing a combined MML id of well-formed pieces inside
the consumed ids computation recovers every piece. -/
theorem consumed_of_combined (p : String) (sufs : List String) (a : LogEntry)
    (hmml : a.MML_ID = some (p ++ pyJoin "-" sufs))
    (hpd : ∀ ch ∈ p.data, Char.isDigit ch = true)
    (hpn : p ≠ "")
    (h2 : 2 ≤ sufs.length)
    (hs : ∀ s ∈ sufs, s.data ≠ [] ∧ (∀ ch ∈ s.data, isWS ch = false ∧ ¬ ch = '-') ∧
      Char.isDigit (s.data.headD '-') = false) :
    ∀ s ∈ sufs, (p ++ s) ∈ consumedIds [a] := by
  cases sufs with
  | nil => simp at h2
  | cons s1 r1 =>
    cases r1 with
    | nil => simp at h2
    | cons s2 rest =>
      intro s hsmem
      have hJ : (pyJoin "-" (s1 :: s2 :: rest)).data =
          s1.data ++ '-' :: (pyJoin "-" (s2 :: rest)).data := by
        rw [pyJoin_cons_cons, data_append3]
      have hcdata : (p ++ pyJoin "-" (s1 :: s2 :: rest)).data =
          p.data ++ (pyJoin "-" (s1 :: s2 :: rest)).data := rfl
      have hnoWS : ∀ ch ∈ (p ++ pyJoin "-" (s1 :: s2 :: rest)).data, isWS ch = false := by
        intro ch hch
        rw [hcdata] at hch
        rcases List.mem_append.mp hch with h1 | h1
        · exact digit_not_ws ch (hpd ch h1)
        · rcases mem_pyJoin_dash (s2 :: rest) s1 ch h1 with h3 | ⟨sx, hx1, hx2⟩
          · subst h3; decide
          · exact ((hs sx hx1).2.1 ch hx2).1
      have htrim : trimStr (p ++ pyJoin "-" (s1 :: s2 :: rest)) =
          p ++ pyJoin "-" (s1 :: s2 :: rest) := trimStr_eq_self hnoWS
      have hdash : '-' ∈ (p ++ pyJoin "-" (s1 :: s2 :: rest)).data := by
        rw [hcdata, hJ]
        exact List.mem_append.mpr (Or.inr (List.mem_append.mpr (Or.inr (by simp))))
      have hld : leadingDigits (p ++ pyJoin "-" (s1 :: s2 :: rest)) = p := by
        unfold leadingDigits
        rw [hcdata]
        rw [takeWhile_append_of_all Char.isDigit p.data _ hpd]
        obtain ⟨hne, hchars, hhd⟩ := hs s1 (by simp)
        cases hs1d : s1.data with
        | nil => exact absurd hs1d hne
        | cons ch1 tl =>
          rw [hJ, hs1d]
          rw [List.cons_append, List.takeWhile_cons]
          rw [hs1d] at hhd
          simp only [List.headD_cons] at hhd
          rw [hhd]
          simp
      have hsplit : splitDash (strDropn (p ++ pyJoin "-" (s1 :: s2 :: rest)) (strLen p)) =
          s1 :: s2 :: rest := by
        unfold strDropn strLen splitDash
        rw [hcdata]
        rw [show ((p.data ++ (pyJoin "-" (s1 :: s2 :: rest)).data).drop p.data.length) =
            (pyJoin "-" (s1 :: s2 :: rest)).data from List.drop_left _ _]
        rw [splitDashAux_pyJoin (s2 :: rest) s1 (fun sx hx => ((hs sx hx).2.1 · · |>.2))]
        rw [List.map_map]
        rw [show (String.mk ∘ String.data) = id from funext (fun sx => rfl)]
        exact List.map_id _
      unfold consumedIds
      simp only [List.foldl_cons, List.foldl_nil]
      rw [hmml]
      rw [show strOf (some (p ++ pyJoin "-" (s1 :: s2 :: rest))) =
          p ++ pyJoin "-" (s1 :: s2 :: rest) from rfl]
      rw [htrim]
      rw [if_pos ((List.elem_iff).mpr hdash)]
      rw [hld]
      rw [if_pos hpn]
      rw [hsplit]
      rw [List.nil_append]
      exact List.mem_map_of_mem (fun s0 => p ++ s0) hsmem

/-- Counterexample to claim C4: the group carries the MML id occurrences
183A, 183A, 183B, whose distinct values 183A and 183B share the numeric
prefix 183, so the claim requires the combined id 183A-B; the code builds
the suffix list from the occurrence list, duplicates included, and
produces 183A-A-B. -/
theorem C4_counterexample :
    (aggGroup gC4).toOption.map (fun a => a.MML_ID) = some (some "183A-A-B") := by
  decide

/-- Claim C4 amended: for a successful multi-entry aggregate with more
than one distinct non-blank MML id, the code examines only the leading
numeric prefix of the first occurrence; when that prefix is nonempty the
aggregate's MML id is the prefix followed by the after-prefix remainders
of every occurrence (duplicates included, with no check that the other
values share the prefix) joined by dashes, and when the first occurrence
is not numeric-led the aggregate's MML id falls back to the first
occurrence; when the combined id's pieces are nonempty, dash-free,
whitespace-free and not digit-led, every prefix plus piece combination is
recorded in the consumed ids of the aggregated table. -/
theorem C4_mml_amended (g : List LogEntry) (a : LogEntry)
    (hok : aggGroup g = Except.ok a)
    (h2 : 2 ≤ (sortByTime g).length)
    (hd : 1 < (mmlList (sortByTime g)).dedup.length) :
    (let ml := mmlList (sortByTime g)
     let p := leadingDigits (ml.headD "")
     let sufs := mmlSuffixes ml p
     (p ≠ "" → sufs ≠ [] → a.MML_ID = some (p ++ pyJoin "-" sufs)) ∧
     (p = "" → a.MML_ID = some (ml.headD "")) ∧
     (p ≠ "" → 2 ≤ sufs.length →
       (∀ s ∈ sufs, s.data ≠ [] ∧ (∀ ch ∈ s.data, isWS ch = false ∧ ¬ ch = '-') ∧
         Char.isDigit (s.data.headD '-') = false) →
       ∀ s ∈ sufs, (p ++ s) ∈ consumedIds [a])) := by
  obtain ⟨b, hb⟩ := aggGroup_shape g a hok h2
  have hm := applyMml_MML (sortByTime g) b hd
  dsimp only
  have hcomb : leadingDigits ((mmlList (sortByTime g)).headD "") ≠ "" →
      mmlSuffixes (mmlList (sortByTime g))
        (leadingDigits ((mmlList (sortByTime g)).headD "")) ≠ [] →
      a.MML_ID = some (leadingDigits ((mmlList (sortByTime g)).headD "") ++
        pyJoin "-" (mmlSuffixes (mmlList (sortByTime g))
          (leadingDigits ((mmlList (sortByTime g)).headD "")))) := by
    intro hp hsne
    rw [hb, hm]
    dsimp only
    rw [if_pos hp, if_pos hsne]
  refine ⟨hcomb, ?_, ?_⟩
  · intro hp
    rw [hb, hm]
    dsimp only
    rw [if_neg (fun hne => hne hp)]
  · intro hp h2s hcond
    have hpd : ∀ ch ∈ (leadingDigits ((mmlList (sortByTime g)).headD "")).data,
        Char.isDigit ch = true := by
      intro ch hch
      exact List.mem_takeWhile_imp hch
    have hsne : mmlSuffixes (mmlList (sortByTime g))
        (leadingDigits ((mmlList (sortByTime g)).headD "")) ≠ [] := by
      intro hnil
      rw [hnil] at h2s
      simp at h2s
    exact consumed_of_combined _ _ a (hcomb hp hsne) hpd hp h2s hcond

/-- Witness for the amended claim C4 at the 183A and 183B group: the
combined id is 183A-B and both 183A and 183B land in the consumed ids. -/
theorem C4_mml_amended_witness :
    aggC4w.MML_ID = some "183A-B" ∧
    "183A" ∈ consumedIds [aggC4w] ∧ "183B" ∈ consumedIds [aggC4w] := by
  have h := C4_mml_amended gC4w aggC4w (by rfl) (by decide) (by decide)
  refine ⟨?_, ?_, ?_⟩
  · exact h.1 (by decide) (by decide)
  · exact h.2.2 (by decide) (by decide) (by decide) "A" (by decide)
  · exact h.2.2 (by decide) (by decide) (by decide) "B" (by decide)

end Countsheet
